import Mathlib

/-!
Verification development for the NYC-taxi SQL pipeline
(`scripts/full_refresh.py`, `scripts/run_incremental.py`,
`scripts/pipeline_helpers.py`).

The pipeline is embedded shallowly: external I/O (network transfer, the
PostgreSQL statements, the SQL transform scripts) is modelled by boolean
success oracles, the filesystem and database by an explicit state record,
and every observable action by an entry in an effect trace.  The `env`
parameter assigns to each month the number of data rows its upstream
parquet artifact holds.
-/

namespace NycTaxi

/-- The configured dataset year (`YEAR = 2024` in `full_refresh.py`, and the
default of `os.getenv("YEAR", "2024")` in `pipeline_helpers.py`). -/
def YEAR : Nat := 2024

/-- The zero-padded formatting `f"{month:02}"` used by Python for a natural number. -/
def pad2 (n : Nat) : String :=
  if n < 10 then "0" ++ toString n else toString n

/-- `pipeline_helpers.month_to_filename`: the standardized parquet file name
for a year/month, `f"yellow_tripdata_{year}-{month:02}.parquet"`. -/
def month_to_filename (year month : Nat) : String :=
  "yellow_tripdata_" ++ toString year ++ "-" ++ pad2 month ++ ".parquet"

/-- The source URL templated from the artifact file name, as built in
`run_incremental.py` and `full_refresh.py`. -/
def url_of (filename : String) : String :=
  "https://d37ci6vzurychx.cloudfront.net/trip-data/" ++ filename

/-- The `LoadDecision` of the spec: derived, not stored. -/
inductive LoadDecision
  | Skip
  | Load
  deriving DecidableEq, Repr

/-- The change-detection rule embedded in `load_csv_to_postgres`
(`full_refresh.py` line 172): skip when `csv_count == db_count and
csv_count > 0`, otherwise load. -/
def load_decision (csvCount dbCount : Nat) : LoadDecision :=
  if csvCount = dbCount ∧ 0 < csvCount then LoadDecision.Skip else LoadDecision.Load

/-- Observable side effects of a pipeline run. -/
inductive Effect
  | fetchTransfer (m : Nat)   -- an actual network transfer attempt for month m
  | rawAppend (m : Nat)       -- COPY of month m appended into the raw table
  | rawTruncate               -- TRUNCATE of the raw table
  | rawCopy                   -- COPY of the combined CSV into the raw table
  | parquetRead (m : Nat)     -- pq.read_table of month m during the merge
  | csvWrite (m : Nat)        -- month m written into the combined CSV
  | runCreate                 -- create_raw_table.sql executed
  | runSilver                 -- transform_silver.sql executed
  | runGold                   -- aggregate_gold.sql executed
  | cursorUpsert (y m : Nat)  -- pipeline_metadata upserted to "y-m"
  deriving DecidableEq, Repr

/-- Typed failure carried by a raised Python exception. -/
inductive RunError
  | metaErr       -- metadata table create/update error
  | loadErr       -- raw-table write (TRUNCATE/COPY) error
  | transformErr  -- transform_silver.sql error
  | aggErr        -- aggregate_gold.sql error
  | convertErr    -- pq.read_table / write_csv error during the merge
  | fileNotFound  -- FileNotFoundError on a missing CSV
  | sqlErr        -- create_raw_table.sql error
  deriving DecidableEq, Repr

/-- How a run terminates: a normal return, or a propagated exception. -/
inductive Outcome
  | normal
  | raised (e : RunError)
  deriving DecidableEq, Repr

/-! ## Incremental pipeline (`run_incremental.py` + `pipeline_helpers.py`) -/

/-- Success oracles for the external effects of one incremental run. -/
structure IncOracles where
  ensureOk : Bool           -- ensure_pipeline_metadata_table succeeds
  metaReadOk : Bool         -- the SELECT in get_last_loaded_month succeeds
  downloadOk : Nat → Bool   -- the network transfer for month m succeeds
  copyOk : Bool             -- load_parquet_month_to_raw_inmemory succeeds
  silverOk : Bool           -- transform_silver.sql succeeds
  goldOk : Bool             -- aggregate_gold.sql succeeds
  metaWriteOk : Bool        -- update_last_loaded_month succeeds

/-- Durable state seen by the incremental pipeline: which months have a
local parquet artifact, the raw-table row count, and the persisted
`last_loaded_month` cursor (parsed as a year/month pair). -/
structure IncState where
  artifacts : List Nat
  rawRows : Nat
  cursor : Option (Nat × Nat)
  deriving DecidableEq, Repr

/-- `run_incremental.next_month_after`: `None ↦ f"{YEAR}-01"`; a parsed
cursor `(y, m)` (strptime guarantees `1 ≤ m ≤ 12`) maps to `(y, m+1)`, or
`None` once `m + 1 > 12`. -/
def next_month_after : Option (Nat × Nat) → Option (Nat × Nat)
  | none => some (YEAR, 1)
  | some (y, m) => if m + 1 > 12 then none else some (y, m + 1)

/-- `pipeline_helpers.download_parquet`: returns `true` if the artifact is
present (already exists, or the transfer succeeded) and `false` on a
transfer failure — it never raises. -/
def download_parquet (o : IncOracles) (s : IncState) (m : Nat) :
    IncState × List Effect × Bool :=
  if m ∈ s.artifacts then (s, [], true)
  else if o.downloadOk m then
    ({ s with artifacts := m :: s.artifacts }, [Effect.fetchTransfer m], true)
  else (s, [Effect.fetchTransfer m], false)

/-- `run_incremental.run_incremental_one_month`: ensure the metadata table,
read the cursor (read errors are caught inside `get_last_loaded_month`,
which then returns `None`), compute the next month, download, append into
raw, run the silver and gold scripts, and only then upsert the cursor.
Failures of the load/transform/update steps re-raise. -/
def run_incremental_one_month (env : Nat → Nat) (o : IncOracles)
    (deleteAfter : Bool) (s : IncState) : IncState × List Effect × Outcome :=
  if o.ensureOk then
    let last := if o.metaReadOk then s.cursor else none
    match next_month_after last with
    | none => (s, [], Outcome.normal)
    | some (y, m) =>
      let dl := download_parquet o s m
      let s1 := dl.1
      let tr1 := dl.2.1
      if dl.2.2 then
        if o.copyOk then
          let s2 : IncState := { s1 with rawRows := s1.rawRows + env m }
          if o.silverOk then
            if o.goldOk then
              if o.metaWriteOk then
                let s3 : IncState := { s2 with cursor := some (y, m) }
                let s4 : IncState :=
                  if deleteAfter then { s3 with artifacts := s3.artifacts.erase m }
                  else s3
                (s4, tr1 ++ [Effect.rawAppend m, Effect.runSilver, Effect.runGold,
                             Effect.cursorUpsert y m], Outcome.normal)
              else
                (s2, tr1 ++ [Effect.rawAppend m, Effect.runSilver, Effect.runGold],
                 Outcome.raised RunError.metaErr)
            else
              (s2, tr1 ++ [Effect.rawAppend m, Effect.runSilver],
               Outcome.raised RunError.aggErr)
          else
            (s2, tr1 ++ [Effect.rawAppend m], Outcome.raised RunError.transformErr)
        else (s1, tr1, Outcome.raised RunError.loadErr)
      else (s1, tr1, Outcome.normal)
  else (s, [], Outcome.raised RunError.metaErr)

/-! ## Full-refresh pipeline (`full_refresh.py`) -/

/-- Success oracles for the external effects of one full-refresh run. -/
structure FROracles where
  createOk : Bool           -- create_raw_table.sql succeeds
  downloadOk : Nat → Bool   -- the network transfer for month m succeeds
  convertOk : Nat → Bool    -- pq.read_table / write_csv for month m succeeds
  countOk : Bool            -- SELECT COUNT(*) succeeds (else the helper yields 0)
  truncateOk : Bool         -- TRUNCATE TABLE succeeds
  copyOk : Bool             -- COPY FROM STDIN succeeds
  silverOk : Bool           -- transform_silver.sql succeeds
  goldOk : Bool             -- aggregate_gold.sql succeeds

/-- Durable state seen by the full-refresh pipeline: the local parquet
artifacts, the combined-CSV file (`none` = absent, `some ms` = holds the
rows of the months `ms`, in merge order), and the raw-table row count. -/
structure FRState where
  artifacts : List Nat
  csv : Option (List Nat)
  rawRows : Nat
  deriving DecidableEq, Repr

/-- The months `range(1, 13)` iterated by the download and merge loops. -/
def MONTHS : List Nat := [1, 2, 3, 4, 5, 6, 7, 8, 9, 10, 11, 12]

/-- `full_refresh.download_parquet`: skip when the artifact exists;
otherwise attempt the transfer, and on failure log and swallow the
exception (no return value, the caller cannot tell it failed). -/
def fr_download_parquet (o : FROracles) (s : FRState) (m : Nat) :
    FRState × List Effect :=
  if m ∈ s.artifacts then (s, [])
  else if o.downloadOk m then
    ({ s with artifacts := m :: s.artifacts }, [Effect.fetchTransfer m])
  else (s, [Effect.fetchTransfer m])

/-- The `for month in range(1, 13): download_parquet(url, dest)` loop of
`run_full_refresh`. -/
def download_loop (o : FROracles) : FRState → List Nat → FRState × List Effect
  | s, [] => (s, [])
  | s, m :: rest =>
    match fr_download_parquet o s m with
    | (s1, tr1) =>
      match download_loop o s1 rest with
      | (s2, tr2) => (s2, tr1 ++ tr2)

/-- The month loop inside `full_refresh.merge_parquet_files_to_csv`:
missing parquet files are skipped with a warning; an existing one is read
and appended to the CSV.  A read/convert error propagates (there is no
inner handler in `full_refresh.py`), leaving the months already written in
the file.  Returns (months written, effects, no-exception flag). -/
def merge_months (o : FROracles) (arts : List Nat) :
    List Nat → List Nat × List Effect × Bool
  | [] => ([], [], true)
  | m :: rest =>
    if m ∈ arts then
      if o.convertOk m then
        match merge_months o arts rest with
        | (ms, tr, ok) =>
          (m :: ms, Effect.parquetRead m :: Effect.csvWrite m :: tr, ok)
      else ([], [Effect.parquetRead m], false)
    else merge_months o arts rest

/-- `full_refresh.merge_parquet_files_to_csv`: return immediately when the
combined CSV already exists; otherwise create it from the months whose
parquet files exist. -/
def merge_parquet_files_to_csv (o : FROracles) (s : FRState) :
    FRState × List Effect × Bool :=
  match s.csv with
  | some _ => (s, [], true)
  | none =>
    match merge_months o s.artifacts MONTHS with
    | (ms, tr, ok) => ({ s with csv := some ms }, tr, ok)

/-- `get_table_row_count`: `SELECT COUNT(*)`, returning 0 on any error. -/
def get_table_row_count (countOk : Bool) (rows : Nat) : Nat :=
  if countOk then rows else 0

/-- Row count of the combined CSV as `get_csv_row_count` sees it: the data
rows of the merged months (the header line is subtracted; an empty file
clamps to 0 via `max(..., 0)`), and 0 when the file is missing. -/
def csv_row_count (env : Nat → Nat) : Option (List Nat) → Nat
  | none => 0
  | some ms => (ms.map env).sum

/-- `full_refresh.load_csv_to_postgres`: raise `FileNotFoundError` when the
CSV is missing; skip when `csv_count == db_count and csv_count > 0`;
otherwise truncate (committed on its own connection) and then COPY the CSV
in.  A COPY failure after the truncation leaves the table empty. -/
def load_csv_to_postgres (env : Nat → Nat) (o : FROracles) (s : FRState) :
    FRState × List Effect × Option RunError :=
  match s.csv with
  | none => (s, [], some RunError.fileNotFound)
  | some ms =>
    let csvCount := csv_row_count env (some ms)
    let dbCount := get_table_row_count o.countOk s.rawRows
    if load_decision csvCount dbCount = LoadDecision.Skip then (s, [], none)
    else
      if o.truncateOk then
        if o.copyOk then
          ({ s with rawRows := csvCount }, [Effect.rawTruncate, Effect.rawCopy], none)
        else ({ s with rawRows := 0 }, [Effect.rawTruncate], some RunError.loadErr)
      else (s, [], some RunError.loadErr)

/-- `full_refresh.run_full_refresh`: create the raw schema, download all
twelve months (failures swallowed), merge into the combined CSV, load it
when the counts differ, then run the silver and gold scripts. -/
def run_full_refresh (env : Nat → Nat) (o : FROracles) (s : FRState) :
    FRState × List Effect × Outcome :=
  if o.createOk then
    match download_loop o s MONTHS with
    | (s1, tr1) =>
      match merge_parquet_files_to_csv o s1 with
      | (s2, tr2, mok) =>
        if mok then
          match load_csv_to_postgres env o s2 with
          | (s3, tr3, none) =>
            if o.silverOk then
              if o.goldOk then
                (s3, Effect.runCreate :: (tr1 ++ tr2 ++ tr3 ++
                   [Effect.runSilver, Effect.runGold]), Outcome.normal)
              else
                (s3, Effect.runCreate :: (tr1 ++ tr2 ++ tr3 ++ [Effect.runSilver]),
                 Outcome.raised RunError.aggErr)
            else
              (s3, Effect.runCreate :: (tr1 ++ tr2 ++ tr3),
               Outcome.raised RunError.transformErr)
          | (s3, tr3, some e) =>
            (s3, Effect.runCreate :: (tr1 ++ tr2 ++ tr3), Outcome.raised e)
        else
          (s2, Effect.runCreate :: (tr1 ++ tr2), Outcome.raised RunError.convertErr)
  else (s, [Effect.runCreate], Outcome.raised RunError.sqlErr)

/-! ## Spec-side definition for the partition namer (claim C9) -/

/-- The `InvalidPartition` failure named by the spec for the partition namer. -/
inductive NameError
  | InvalidPartition
  deriving DecidableEq, Repr

/-- The partition namer exactly as the spec words it (`nameOf(year, month)`,
"total for month ∈ [1,12]; fails with InvalidPartition outside that
range"), to be compared with `month_to_filename` from the code. -/
def nameOf_spec (year month : Nat) : Except NameError String :=
  if 1 ≤ month ∧ month ≤ 12 then Except.ok (month_to_filename year month)
  else Except.error NameError.InvalidPartition

/-! ## Helper lemmas -/

/-- Characterisation of the skip branch of the change detector. -/
theorem load_decision_skip_char (a b : Nat) :
    load_decision a b = LoadDecision.Skip ↔ (a = b ∧ 0 < a) := by
  unfold load_decision
  split <;> simp_all
  omega

/-- With an empty destination table the change detector always loads. -/
theorem load_decision_zero_dest (c : Nat) : load_decision c 0 = LoadDecision.Load := by
  unfold load_decision
  split <;> simp_all
  omega

/-! ## Claim theorems -/

/-- Claim C2: for every pair of row counts, the load decision is Skip iff
the source row count equals the destination row count and that shared
count is strictly positive; in every other case, including both counts
zero, the decision is Load. -/
theorem C2_load_decision_iff (a b : Nat) :
    (load_decision a b = LoadDecision.Skip ↔ (a = b ∧ 0 < a)) ∧
    load_decision 0 0 = LoadDecision.Load := by
  constructor
  · exact load_decision_skip_char a b
  · rfl

/-- Claim C2 witness: the theorem evaluated at equal positive counts and at
the zero/zero boundary case. -/
theorem C2_load_decision_iff_witness :
    load_decision 7 7 = LoadDecision.Skip ∧ load_decision 0 0 = LoadDecision.Load :=
  ⟨(C2_load_decision_iff 7 7).1.mpr (by decide), (C2_load_decision_iff 0 0).2⟩

/-- Claim C9, counterexample: the partition namer of the code does not fail
for month 13; it returns an ordinary artifact name, where the spec `nameOf`
demands an `InvalidPartition` failure there. -/
theorem C9_cx_month13_total :
    month_to_filename 2024 13 = "yellow_tripdata_2024-13.parquet" ∧
    nameOf_spec 2024 13 = Except.error NameError.InvalidPartition := by
  exact ⟨rfl, rfl⟩

/-- Claim C9, amended: `month_to_filename` is pure and total for every
month; inside [1,12] it agrees with the namer of the spec, while outside that
range it does not fail but still returns the templated file name. -/
theorem C9_namer_total_refines_spec (y m : Nat) :
    (1 ≤ m ∧ m ≤ 12 → nameOf_spec y m = Except.ok (month_to_filename y m)) ∧
    (¬(1 ≤ m ∧ m ≤ 12) →
      nameOf_spec y m = Except.error NameError.InvalidPartition ∧
      month_to_filename y m =
        "yellow_tripdata_" ++ toString y ++ "-" ++ pad2 m ++ ".parquet") := by
  constructor
  · intro h
    simp [nameOf_spec, h]
  · intro h
    simp [nameOf_spec, h, month_to_filename]

/-- Claim C9 witness: the amended theorem evaluated at month 13. -/
theorem C9_namer_total_refines_spec_witness :
    nameOf_spec 2024 13 = Except.error NameError.InvalidPartition ∧
    month_to_filename 2024 13 =
      "yellow_tripdata_" ++ toString 2024 ++ "-" ++ pad2 13 ++ ".parquet" :=
  (C9_namer_total_refines_spec 2024 13).2 (by decide)

/-- Claim C5: an incremental invocation targets exactly the first month not
covered by the cursor — `(YEAR, 1)` when no cursor is recorded, `(y, m+1)`
for a cursor `(y, m)` with `m < 12` — and with the cursor at month 12 the
run is a successful no-op: no fetch, no load, no transform, state
unchanged. -/
theorem C5_incremental_first_uncovered (env : Nat → Nat) (o : IncOracles)
    (d : Bool) (s : IncState) (y : Nat)
    (h1 : o.ensureOk = true) (h2 : o.metaReadOk = true)
    (h3 : s.cursor = some (y, 12)) :
    (next_month_after none = some (YEAR, 1) ∧ YEAR = 2024) ∧
    (∀ y' m, m < 12 → next_month_after (some (y', m)) = some (y', m + 1)) ∧
    run_incremental_one_month env o d s = (s, [], Outcome.normal) := by
  refine ⟨⟨rfl, rfl⟩, ?_, ?_⟩
  · intro y' m hm
    simp [next_month_after]
    omega
  · simp [run_incremental_one_month, h1, h2, h3, next_month_after]

/-- Claim C5 witness: the theorem at a cursor standing at 2024-12. -/
theorem C5_incremental_first_uncovered_witness :
    (next_month_after none = some (YEAR, 1) ∧ YEAR = 2024) ∧
    (∀ y' m, m < 12 → next_month_after (some (y', m)) = some (y', m + 1)) ∧
    run_incremental_one_month (fun _ => 10)
      { ensureOk := true, metaReadOk := true, downloadOk := fun _ => true,
        copyOk := true, silverOk := true, goldOk := true, metaWriteOk := true }
      false { artifacts := [], rawRows := 0, cursor := some (2024, 12) } =
      ({ artifacts := [], rawRows := 0, cursor := some (2024, 12) }, [],
       Outcome.normal) :=
  C5_incremental_first_uncovered (fun _ => 10) _ false _ 2024 rfl rfl rfl

/-- Claim C7: in incremental mode a failed download is reported as a
`false` return (never an exception); the run then stops with a normal
outcome, leaving the raw table, the transforms and the cursor untouched. -/
theorem C7_incremental_unavailable_clean (env : Nat → Nat) (o : IncOracles)
    (d : Bool) (s : IncState) (y m : Nat)
    (h1 : o.ensureOk = true) (h2 : o.metaReadOk = true)
    (h3 : next_month_after s.cursor = some (y, m))
    (h4 : m ∉ s.artifacts) (h5 : o.downloadOk m = false) :
    download_parquet o s m = (s, [Effect.fetchTransfer m], false) ∧
    run_incremental_one_month env o d s =
      (s, [Effect.fetchTransfer m], Outcome.normal) := by
  have hdl : download_parquet o s m = (s, [Effect.fetchTransfer m], false) := by
    simp [download_parquet, h4, h5]
  refine ⟨hdl, ?_⟩
  simp [run_incremental_one_month, h1, h2, h3, hdl]

/-- Claim C7 witness: the theorem with no artifacts, no cursor and a
failing transfer for month 1. -/
theorem C7_incremental_unavailable_clean_witness :
    run_incremental_one_month (fun _ => 10)
      { ensureOk := true, metaReadOk := true, downloadOk := fun _ => false,
        copyOk := true, silverOk := true, goldOk := true, metaWriteOk := true }
      false { artifacts := [], rawRows := 0, cursor := none } =
      ({ artifacts := [], rawRows := 0, cursor := none },
       [Effect.fetchTransfer 1], Outcome.normal) :=
  (C7_incremental_unavailable_clean (fun _ => 10)
    { ensureOk := true, metaReadOk := true, downloadOk := fun _ => false,
      copyOk := true, silverOk := true, goldOk := true, metaWriteOk := true }
    false { artifacts := [], rawRows := 0, cursor := none } 2024 1 rfl rfl rfl
    (by simp) rfl).2

/-- Claim C4, counterexample: a failed cursor read is not fatal.  With the
metadata SELECT failing and the persisted cursor at 2024-05, the
incremental run proceeds as if no cursor existed: it re-loads month 1,
returns a normal outcome, and even overwrites the cursor back to 2024-01. -/
theorem C4_cx_read_failure_proceeds :
    run_incremental_one_month (fun _ => 10)
      { ensureOk := true, metaReadOk := false, downloadOk := fun _ => true,
        copyOk := true, silverOk := true, goldOk := true, metaWriteOk := true }
      false { artifacts := [1], rawRows := 100, cursor := some (2024, 5) } =
    ({ artifacts := [1], rawRows := 110, cursor := some (2024, 1) },
     [Effect.rawAppend 1, Effect.runSilver, Effect.runGold,
      Effect.cursorUpsert 2024 1], Outcome.normal) := by
  rfl

/-- Claim C4, amended: metadata-table creation failures and cursor write
failures are fatal (raised upward, cursor untouched), but cursor read
failures are swallowed inside `get_last_loaded_month`: the run proceeds as
though no cursor were recorded and targets the first month of the year. -/
theorem C4_metadata_failure_policy (env : Nat → Nat) (o : IncOracles) (d : Bool)
    (s : IncState) (y m : Nat) :
    (o.ensureOk = false →
      run_incremental_one_month env o d s =
        (s, [], Outcome.raised RunError.metaErr)) ∧
    (o.ensureOk = true → o.metaReadOk = true →
      next_month_after s.cursor = some (y, m) →
      (m ∈ s.artifacts ∨ o.downloadOk m = true) → o.copyOk = true →
      o.silverOk = true → o.goldOk = true → o.metaWriteOk = false →
      (run_incremental_one_month env o d s).2.2 = Outcome.raised RunError.metaErr ∧
      ((run_incremental_one_month env o d s).1).cursor = s.cursor) ∧
    (o.ensureOk = true → o.metaReadOk = false →
      (1 ∈ s.artifacts ∨ o.downloadOk 1 = true) → o.copyOk = true →
      o.silverOk = true → o.goldOk = true → o.metaWriteOk = true →
      ((run_incremental_one_month env o d s).1).cursor = some (YEAR, 1) ∧
      (run_incremental_one_month env o d s).2.2 = Outcome.normal) := by
  refine ⟨?_, ?_, ?_⟩
  · intro h
    simp [run_incremental_one_month, h]
  · intro h1 h2 h3 h4 h5 h6 h7 h8
    by_cases hmem : m ∈ s.artifacts
    · simp [run_incremental_one_month, download_parquet, h1, h2, h3, hmem,
        h5, h6, h7, h8]
    · rcases h4 with h4 | h4
      · exact absurd h4 hmem
      · simp [run_incremental_one_month, download_parquet, h1, h2, h3, hmem,
          h4, h5, h6, h7, h8]
  · intro h1 h2 h4 h5 h6 h7 h8
    by_cases hmem : (1 : Nat) ∈ s.artifacts <;> cases d
    · simp [run_incremental_one_month, download_parquet, next_month_after, h1,
        h2, hmem, h5, h6, h7, h8]
    · simp [run_incremental_one_month, download_parquet, next_month_after, h1,
        h2, hmem, h5, h6, h7, h8]
    · rcases h4 with h4 | h4
      · exact absurd h4 hmem
      · simp [run_incremental_one_month, download_parquet, next_month_after,
          h1, h2, hmem, h4, h5, h6, h7, h8]
    · rcases h4 with h4 | h4
      · exact absurd h4 hmem
      · simp [run_incremental_one_month, download_parquet, next_month_after,
          h1, h2, hmem, h4, h5, h6, h7, h8]

/-- Claim C4 witness: the amended theorem at a failing cursor write. -/
theorem C4_metadata_failure_policy_witness :
    (run_incremental_one_month (fun _ => 10)
      { ensureOk := true, metaReadOk := true, downloadOk := fun _ => true,
        copyOk := true, silverOk := true, goldOk := true, metaWriteOk := false }
      false { artifacts := [], rawRows := 0, cursor := none }).2.2 =
      Outcome.raised RunError.metaErr ∧
    ((run_incremental_one_month (fun _ => 10)
      { ensureOk := true, metaReadOk := true, downloadOk := fun _ => true,
        copyOk := true, silverOk := true, goldOk := true, metaWriteOk := false }
      false { artifacts := [], rawRows := 0, cursor := none }).1).cursor =
      ({ artifacts := [], rawRows := 0, cursor := none } : IncState).cursor :=
  (C4_metadata_failure_policy (fun _ => 10)
    { ensureOk := true, metaReadOk := true, downloadOk := fun _ => true,
      copyOk := true, silverOk := true, goldOk := true, metaWriteOk := false }
    false { artifacts := [], rawRows := 0, cursor := none } 2024 1).2.1
    rfl rfl rfl (Or.inr rfl) rfl rfl rfl rfl

/-- Claim C3, counterexample: with months 1–3 present locally and every
network transfer failing, full refresh does not stop at month 4: it keeps
attempting months 5–12, merges and loads the rows of months 1–3, runs both
transforms, and terminates with a normal outcome instead of a transfer
failure. -/
theorem C3_cx_full_refresh_continues :
    run_full_refresh (fun _ => 10)
      { createOk := true, downloadOk := fun _ => false, convertOk := fun _ => true,
        countOk := true, truncateOk := true, copyOk := true, silverOk := true,
        goldOk := true }
      { artifacts := [1, 2, 3], csv := none, rawRows := 0 } =
    ({ artifacts := [1, 2, 3], csv := some [1, 2, 3], rawRows := 30 },
     [Effect.runCreate, Effect.fetchTransfer 4, Effect.fetchTransfer 5,
      Effect.fetchTransfer 6, Effect.fetchTransfer 7, Effect.fetchTransfer 8,
      Effect.fetchTransfer 9, Effect.fetchTransfer 10, Effect.fetchTransfer 11,
      Effect.fetchTransfer 12, Effect.parquetRead 1, Effect.csvWrite 1,
      Effect.parquetRead 2, Effect.csvWrite 2, Effect.parquetRead 3,
      Effect.csvWrite 3, Effect.rawTruncate, Effect.rawCopy, Effect.runSilver,
      Effect.runGold], Outcome.normal) := by
  rfl

/-- Claim C3, amended: a failed monthly download in full refresh is logged
and swallowed; the loop continues with the remaining months, the merge
skips the missing artifacts, and the run loads the merged rows of the
months that are present and completes normally — here months 1–3 only,
with the transfer for month 12 still attempted. -/
theorem C3_full_refresh_swallows_unavailable (env : Nat → Nat) (o : FROracles)
    (hc : o.createOk = true) (hdl : ∀ m, o.downloadOk m = false)
    (hcv : ∀ m, o.convertOk m = true) (hn : o.countOk = true)
    (ht : o.truncateOk = true) (hcp : o.copyOk = true)
    (hs : o.silverOk = true) (hg : o.goldOk = true) :
    (run_full_refresh env o
        { artifacts := [1, 2, 3], csv := none, rawRows := 0 }).2.2 =
      Outcome.normal ∧
    (run_full_refresh env o
        { artifacts := [1, 2, 3], csv := none, rawRows := 0 }).1 =
      { artifacts := [1, 2, 3], csv := some [1, 2, 3],
        rawRows := csv_row_count env (some [1, 2, 3]) } ∧
    Effect.fetchTransfer 12 ∈
      (run_full_refresh env o
        { artifacts := [1, 2, 3], csv := none, rawRows := 0 }).2.1 := by
  obtain ⟨cOk, dOk, vOk, nOk, tOk, pOk, sOk, gOk⟩ := o
  simp only at hc hdl hcv hn ht hcp hs hg
  subst hc hn ht hcp hs hg
  have hd : dOk = fun _ => false := funext hdl
  have hv : vOk = fun _ => true := funext hcv
  subst hd hv
  refine ⟨?_, ?_, ?_⟩ <;>
    simp [run_full_refresh, MONTHS, download_loop, fr_download_parquet,
      merge_parquet_files_to_csv, merge_months, load_csv_to_postgres,
      get_table_row_count, load_decision_zero_dest, csv_row_count]

/-- Claim C3 witness: the amended theorem at ten rows per month. -/
theorem C3_full_refresh_swallows_unavailable_witness :
    (run_full_refresh (fun _ => 10)
      { createOk := true, downloadOk := fun _ => false, convertOk := fun _ => true,
        countOk := true, truncateOk := true, copyOk := true, silverOk := true,
        goldOk := true }
      { artifacts := [1, 2, 3], csv := none, rawRows := 0 }).2.2 =
      Outcome.normal :=
  (C3_full_refresh_swallows_unavailable (fun _ => 10)
    { createOk := true, downloadOk := fun _ => false, convertOk := fun _ => true,
      countOk := true, truncateOk := true, copyOk := true, silverOk := true,
      goldOk := true }
    rfl (fun _ => rfl) (fun _ => rfl) rfl rfl rfl rfl rfl).1

/-- Characterisation of one incremental run once the metadata table is
ensured, the cursor read succeeds and a candidate month exists. -/
theorem run_incremental_char (env : Nat → Nat) (o : IncOracles) (d : Bool)
    (s : IncState) (y m : Nat)
    (h1 : o.ensureOk = true) (h2 : o.metaReadOk = true)
    (h3 : next_month_after s.cursor = some (y, m)) :
    run_incremental_one_month env o d s =
      (let dl := download_parquet o s m
       let s1 := dl.1
       let tr1 := dl.2.1
       if dl.2.2 then
         if o.copyOk then
           let s2 : IncState := { s1 with rawRows := s1.rawRows + env m }
           if o.silverOk then
             if o.goldOk then
               if o.metaWriteOk then
                 let s3 : IncState := { s2 with cursor := some (y, m) }
                 let s4 : IncState :=
                   if d then { s3 with artifacts := s3.artifacts.erase m }
                   else s3
                 (s4, tr1 ++ [Effect.rawAppend m, Effect.runSilver,
                              Effect.runGold, Effect.cursorUpsert y m],
                  Outcome.normal)
               else
                 (s2, tr1 ++ [Effect.rawAppend m, Effect.runSilver,
                              Effect.runGold],
                  Outcome.raised RunError.metaErr)
             else
               (s2, tr1 ++ [Effect.rawAppend m, Effect.runSilver],
                Outcome.raised RunError.aggErr)
           else
             (s2, tr1 ++ [Effect.rawAppend m],
              Outcome.raised RunError.transformErr)
         else (s1, tr1, Outcome.raised RunError.loadErr)
       else (s1, tr1, Outcome.normal)) := by
  simp only [run_incremental_one_month, h1, h2, if_true, h3]

/-- Claim C1: in incremental mode the cursor is upserted — and upserted to
the candidate partition — only when the fetch, the raw append, the
cleaning pass and the aggregation pass have all succeeded; if any of the
four fails, the persisted cursor is unchanged, so the candidate of the next
invocation is the same partition again, never the following one. -/
theorem C1_cursor_commit_invariant (env : Nat → Nat) (o : IncOracles) (d : Bool)
    (s : IncState) (y m : Nat)
    (h1 : o.ensureOk = true) (h2 : o.metaReadOk = true)
    (h3 : next_month_after s.cursor = some (y, m)) :
    (∀ y' m',
      Effect.cursorUpsert y' m' ∈ (run_incremental_one_month env o d s).2.1 →
      y' = y ∧ m' = m ∧ (m ∈ s.artifacts ∨ o.downloadOk m = true) ∧
      o.copyOk = true ∧ o.silverOk = true ∧ o.goldOk = true) ∧
    (¬((m ∈ s.artifacts ∨ o.downloadOk m = true) ∧ o.copyOk = true ∧
        o.silverOk = true ∧ o.goldOk = true) →
      ((run_incremental_one_month env o d s).1).cursor = s.cursor ∧
      next_month_after (((run_incremental_one_month env o d s).1).cursor) =
        some (y, m)) := by
  rw [run_incremental_char env o d s y m h1 h2 h3]
  by_cases hA : m ∈ s.artifacts <;>
    by_cases hB : o.downloadOk m = true <;>
    by_cases hC : o.copyOk = true <;>
    by_cases hD : o.silverOk = true <;>
    by_cases hE : o.goldOk = true <;>
    by_cases hF : o.metaWriteOk = true <;>
    simp_all [download_parquet]

/-- Claim C1 witness: the theorem at a failing cleaning pass for month 1. -/
theorem C1_cursor_commit_invariant_witness :
    ((run_incremental_one_month (fun _ => 10)
      { ensureOk := true, metaReadOk := true, downloadOk := fun _ => true,
        copyOk := true, silverOk := false, goldOk := true, metaWriteOk := true }
      false { artifacts := [1], rawRows := 0, cursor := none }).1).cursor =
      ({ artifacts := [1], rawRows := 0, cursor := none } : IncState).cursor ∧
    next_month_after (((run_incremental_one_month (fun _ => 10)
      { ensureOk := true, metaReadOk := true, downloadOk := fun _ => true,
        copyOk := true, silverOk := false, goldOk := true, metaWriteOk := true }
      false { artifacts := [1], rawRows := 0, cursor := none }).1).cursor) =
      some (2024, 1) :=
  (C1_cursor_commit_invariant (fun _ => 10)
    { ensureOk := true, metaReadOk := true, downloadOk := fun _ => true,
      copyOk := true, silverOk := false, goldOk := true, metaWriteOk := true }
    false { artifacts := [1], rawRows := 0, cursor := none } 2024 1
    rfl rfl rfl).2 (by simp)

/-- Claim C8: the replace-all load of full refresh truncates and then bulk
inserts; when the COPY fails after the truncation, the raw table is left
empty and the error is raised, and a later change decision against a
destination count of 0 is always Load, so the next run reloads. -/
theorem C8_truncate_copy_self_healing (env : Nat → Nat) (o : FROracles)
    (s : FRState) (ms : List Nat) (hcsv : s.csv = some ms)
    (hdec : load_decision (csv_row_count env (some ms))
        (get_table_row_count o.countOk s.rawRows) = LoadDecision.Load)
    (ht : o.truncateOk = true) (hcp : o.copyOk = false) :
    load_csv_to_postgres env o s =
      ({ s with rawRows := 0 }, [Effect.rawTruncate], some RunError.loadErr) ∧
    (∀ c, load_decision c 0 = LoadDecision.Load) := by
  constructor
  · simp [load_csv_to_postgres, hcsv, hdec, ht, hcp]
  · exact load_decision_zero_dest

/-- Claim C8 witness: the theorem at a CSV of 20 rows over a table of 5. -/
theorem C8_truncate_copy_self_healing_witness :
    load_csv_to_postgres (fun _ => 10)
      { createOk := true, downloadOk := fun _ => true, convertOk := fun _ => true,
        countOk := true, truncateOk := true, copyOk := false, silverOk := true,
        goldOk := true }
      { artifacts := [1], csv := some [1, 2], rawRows := 5 } =
      ({ artifacts := [1], csv := some [1, 2], rawRows := 0 },
       [Effect.rawTruncate], some RunError.loadErr) :=
  (C8_truncate_copy_self_healing (fun _ => 10)
    { createOk := true, downloadOk := fun _ => true, convertOk := fun _ => true,
      countOk := true, truncateOk := true, copyOk := false, silverOk := true,
      goldOk := true }
    { artifacts := [1], csv := some [1, 2], rawRows := 5 } [1, 2]
    rfl rfl rfl rfl).1

/-- A single full-refresh download step never touches the combined CSV. -/
theorem fr_download_parquet_csv (o : FROracles) (s : FRState) (m : Nat) :
    ((fr_download_parquet o s m).1).csv = s.csv := by
  by_cases h : m ∈ s.artifacts
  · simp [fr_download_parquet, h]
  · by_cases h2 : o.downloadOk m = true <;> simp [fr_download_parquet, h, h2]

/-- The download loop never touches the combined CSV. -/
theorem download_loop_csv (o : FROracles) (l : List Nat) :
    ∀ s : FRState, ((download_loop o s l).1).csv = s.csv := by
  induction l with
  | nil => intro s; rfl
  | cons m rest ih =>
    intro s
    rcases hd : fr_download_parquet o s m with ⟨s1, tr1⟩
    have h1 : s1.csv = s.csv := by
      have hp := fr_download_parquet_csv o s m
      rw [hd] at hp
      exact hp
    rcases hr : download_loop o s1 rest with ⟨s2, tr2⟩
    have h2 : s2.csv = s1.csv := by
      have hp := ih s1
      rw [hr] at hp
      exact hp
    simp [download_loop, hd, hr, h2, h1]

/-- When the combined CSV already exists the merge returns at once:
state unchanged, no parquet read, no byte written. -/
theorem merge_skip_of_csv_some (o : FROracles) (s : FRState) (ms : List Nat)
    (h : s.csv = some ms) : merge_parquet_files_to_csv o s = (s, [], true) := by
  unfold merge_parquet_files_to_csv
  rw [h]

/-- The raw-table load never touches the combined CSV. -/
theorem load_csv_to_postgres_csv (env : Nat → Nat) (o : FROracles) (s : FRState) :
    ((load_csv_to_postgres env o s).1).csv = s.csv := by
  unfold load_csv_to_postgres
  cases h : s.csv with
  | none => simp [h]
  | some ms =>
    simp only [h]
    split
    · simp [h]
    · split
      · split <;> simp [h]
      · simp [h]

/-- A full-refresh run never modifies an already existing combined CSV. -/
theorem run_full_refresh_csv_frame (env : Nat → Nat) (o : FROracles)
    (s : FRState) (ms : List Nat) (h : s.csv = some ms) :
    ((run_full_refresh env o s).1).csv = some ms := by
  by_cases hc : o.createOk = true
  · rcases hD : download_loop o s MONTHS with ⟨s1, tr1⟩
    have hs1 : s1.csv = some ms := by
      have hp := download_loop_csv o MONTHS s
      rw [hD] at hp
      exact hp.trans h
    have hmg := merge_skip_of_csv_some o s1 ms hs1
    rcases hL : load_csv_to_postgres env o s1 with ⟨s3, tr3, e⟩
    have hs3 : s3.csv = some ms := by
      have hp := load_csv_to_postgres_csv env o s1
      rw [hL] at hp
      exact hp.trans hs1
    unfold run_full_refresh
    rw [hc, hD]
    simp only [eq_self_iff_true, if_true, hmg, hL]
    cases e with
    | none =>
      by_cases hsv : o.silverOk = true <;> by_cases hgd : o.goldOk = true <;>
        simp [hsv, hgd, hs3]
    | some err => simpa using hs3
  · simp [run_full_refresh, hc, h]

/-- Claim C10: once the combined yearly CSV exists, the merge step of every
subsequent full-refresh invocation returns immediately — no parquet read,
no byte written, state unchanged — and no part of a full-refresh run ever
changes the content of the combined CSV, whatever the oracles and the local
artifacts do. -/
theorem C10_merge_frame_once_created (o : FROracles) (s : FRState)
    (ms : List Nat) (h : s.csv = some ms) :
    merge_parquet_files_to_csv o s = (s, [], true) ∧
    (∀ env o2, ((run_full_refresh env o2 s).1).csv = some ms) :=
  ⟨merge_skip_of_csv_some o s ms h,
   fun env o2 => run_full_refresh_csv_frame env o2 s ms h⟩

/-- Claim C10 witness: the theorem on a state whose CSV holds months 1–2,
run with artifacts later re-added for every month. -/
theorem C10_merge_frame_once_created_witness :
    merge_parquet_files_to_csv
      { createOk := true, downloadOk := fun _ => true, convertOk := fun _ => true,
        countOk := true, truncateOk := true, copyOk := true, silverOk := true,
        goldOk := true }
      { artifacts := [1, 2, 3, 4], csv := some [1, 2], rawRows := 0 } =
      ({ artifacts := [1, 2, 3, 4], csv := some [1, 2], rawRows := 0 }, [], true) :=
  (C10_merge_frame_once_created
    { createOk := true, downloadOk := fun _ => true, convertOk := fun _ => true,
      countOk := true, truncateOk := true, copyOk := true, silverOk := true,
      goldOk := true }
    { artifacts := [1, 2, 3, 4], csv := some [1, 2], rawRows := 0 } [1, 2] rfl).1

/-- A single full-refresh download step never touches the raw table. -/
theorem fr_download_parquet_rawRows (o : FROracles) (s : FRState) (m : Nat) :
    ((fr_download_parquet o s m).1).rawRows = s.rawRows := by
  by_cases h : m ∈ s.artifacts
  · simp [fr_download_parquet, h]
  · by_cases h2 : o.downloadOk m = true <;> simp [fr_download_parquet, h, h2]

/-- A download step never removes an artifact. -/
theorem fr_download_parquet_mem_mono (o : FROracles) (s : FRState) (m k : Nat)
    (h : k ∈ s.artifacts) : k ∈ ((fr_download_parquet o s m).1).artifacts := by
  by_cases hm : m ∈ s.artifacts
  · simpa [fr_download_parquet, hm] using h
  · by_cases h2 : o.downloadOk m = true <;>
      simp [fr_download_parquet, hm, h2, h]

/-- After a download step with a working transfer, the month is present. -/
theorem fr_download_parquet_self (o : FROracles) (s : FRState) (m : Nat)
    (h : o.downloadOk m = true) :
    m ∈ ((fr_download_parquet o s m).1).artifacts := by
  by_cases hm : m ∈ s.artifacts <;> simp [fr_download_parquet, hm, h]

/-- The download loop never touches the raw table. -/
theorem download_loop_rawRows (o : FROracles) (l : List Nat) :
    ∀ s : FRState, ((download_loop o s l).1).rawRows = s.rawRows := by
  induction l with
  | nil => intro s; rfl
  | cons m rest ih =>
    intro s
    rcases hd : fr_download_parquet o s m with ⟨s1, tr1⟩
    have h1 : s1.rawRows = s.rawRows := by
      have hp := fr_download_parquet_rawRows o s m
      rw [hd] at hp
      exact hp
    rcases hr : download_loop o s1 rest with ⟨s2, tr2⟩
    have h2 : s2.rawRows = s1.rawRows := by
      have hp := ih s1
      rw [hr] at hp
      exact hp
    simp [download_loop, hd, hr, h2, h1]

/-- The download loop never removes an artifact. -/
theorem download_loop_mem_mono (o : FROracles) (l : List Nat) :
    ∀ (s : FRState) (k : Nat), k ∈ s.artifacts →
      k ∈ ((download_loop o s l).1).artifacts := by
  induction l with
  | nil => intro s k hk; exact hk
  | cons m rest ih =>
    intro s k hk
    rcases hd : fr_download_parquet o s m with ⟨s1, tr1⟩
    have h1 : k ∈ s1.artifacts := by
      have hp := fr_download_parquet_mem_mono o s m k hk
      rw [hd] at hp
      exact hp
    rcases hr : download_loop o s1 rest with ⟨s2, tr2⟩
    have h2 := ih s1 k h1
    rw [hr] at h2
    simp [download_loop, hd, hr, h2]

/-- With every transfer working, the download loop leaves every month of
its list present locally. -/
theorem download_loop_complete (o : FROracles) (l : List Nat)
    (hok : ∀ m, o.downloadOk m = true) :
    ∀ (s : FRState) (k : Nat), k ∈ l →
      k ∈ ((download_loop o s l).1).artifacts := by
  induction l with
  | nil => intro s k hk; cases hk
  | cons m rest ih =>
    intro s k hk
    rcases hd : fr_download_parquet o s m with ⟨s1, tr1⟩
    rcases hr : download_loop o s1 rest with ⟨s2, tr2⟩
    rcases List.mem_cons.mp hk with rfl | hk2
    · have hs1 : k ∈ s1.artifacts := by
        have hp := fr_download_parquet_self o s k (hok k)
        rw [hd] at hp
        exact hp
      have h2 := download_loop_mem_mono o rest s1 k hs1
      rw [hr] at h2
      simp [download_loop, hd, hr, h2]
    · have h2 := ih s1 k hk2
      rw [hr] at h2
      simp [download_loop, hd, hr, h2]

/-- When every month is already present, the download loop does nothing:
no transfer, no state change. -/
theorem download_loop_noop (o : FROracles) (l : List Nat) :
    ∀ s : FRState, (∀ m ∈ l, m ∈ s.artifacts) → download_loop o s l = (s, []) := by
  induction l with
  | nil => intro s _; rfl
  | cons m rest ih =>
    intro s h
    have hm : m ∈ s.artifacts := h m (List.mem_cons_self m rest)
    have hd : fr_download_parquet o s m = (s, []) := by
      simp [fr_download_parquet, hm]
    have hr := ih s (fun k hk => h k (List.mem_cons_of_mem m hk))
    simp [download_loop, hd, hr]

/-- With every conversion working, the merge loop raises no exception. -/
theorem merge_months_ok (o : FROracles) (arts : List Nat)
    (h : ∀ m, o.convertOk m = true) :
    ∀ l : List Nat, ((merge_months o arts l).2).2 = true := by
  intro l
  induction l with
  | nil => rfl
  | cons m rest ih =>
    by_cases hm : m ∈ arts
    · rcases hr : merge_months o arts rest with ⟨ms, tr, ok⟩
      rw [hr] at ih
      simp at ih
      simp [merge_months, hm, h m, hr, ih]
    · simpa [merge_months, hm] using ih

/-- The merge step preserves the artifacts and the raw table, and always
leaves a combined CSV behind. -/
theorem merge_fields (o : FROracles) (s : FRState) :
    ((merge_parquet_files_to_csv o s).1).artifacts = s.artifacts ∧
    ((merge_parquet_files_to_csv o s).1).rawRows = s.rawRows ∧
    ∃ ms, ((merge_parquet_files_to_csv o s).1).csv = some ms := by
  unfold merge_parquet_files_to_csv
  cases h : s.csv with
  | some ms => exact ⟨rfl, rfl, ms, h⟩
  | none =>
    rcases hr : merge_months o s.artifacts MONTHS with ⟨ms, tr, ok⟩
    simp [hr]

/-- With every conversion working, the merge step raises no exception. -/
theorem merge_ok (o : FROracles) (s : FRState)
    (hcv : ∀ m, o.convertOk m = true) :
    ((merge_parquet_files_to_csv o s).2).2 = true := by
  unfold merge_parquet_files_to_csv
  cases h : s.csv with
  | some ms => rfl
  | none =>
    rcases hr : merge_months o s.artifacts MONTHS with ⟨ms, tr, ok⟩
    have hp := merge_months_ok o s.artifacts hcv MONTHS
    rw [hr] at hp
    simpa [hr] using hp

/-- A fully successful load leaves the raw table holding exactly the row
count of the CSV and touches nothing else. -/
theorem load_success_state (env : Nat → Nat) (o : FROracles) (s : FRState)
    (ms : List Nat) (hcsv : s.csv = some ms) (hn : o.countOk = true)
    (ht : o.truncateOk = true) (hcp : o.copyOk = true) :
    ((load_csv_to_postgres env o s).2).2 = none ∧
    ((load_csv_to_postgres env o s).1).rawRows = csv_row_count env (some ms) ∧
    ((load_csv_to_postgres env o s).1).csv = some ms ∧
    ((load_csv_to_postgres env o s).1).artifacts = s.artifacts := by
  unfold load_csv_to_postgres
  rw [hcsv]
  by_cases hdec : load_decision (csv_row_count env (some ms))
      (get_table_row_count o.countOk s.rawRows) = LoadDecision.Skip
  · have hskip := (load_decision_skip_char _ _).mp hdec
    have hdb : get_table_row_count o.countOk s.rawRows = s.rawRows := by
      simp [get_table_row_count, hn]
    rw [hdb] at hskip
    simp [hdec, hcsv]
    exact hskip.1.symm
  · simp [hdec, ht, hcp]

/-- After one fully successful full-refresh run, every monthly artifact is
present, the combined CSV exists, and the raw table row count equals the
row count of the combined CSV. -/
theorem run_full_refresh_success_state (env : Nat → Nat) (o : FROracles)
    (s : FRState)
    (hc : o.createOk = true) (hdl : ∀ m, o.downloadOk m = true)
    (hcv : ∀ m, o.convertOk m = true) (hn : o.countOk = true)
    (ht : o.truncateOk = true) (hcp : o.copyOk = true)
    (hs : o.silverOk = true) (hg : o.goldOk = true) :
    (∀ m ∈ MONTHS, m ∈ ((run_full_refresh env o s).1).artifacts) ∧
    ((run_full_refresh env o s).1).rawRows =
      csv_row_count env (((run_full_refresh env o s).1).csv) ∧
    (((run_full_refresh env o s).1).csv).isSome = true := by
  rcases hD : download_loop o s MONTHS with ⟨s1, tr1⟩
  have hs1mem : ∀ k ∈ MONTHS, k ∈ s1.artifacts := by
    intro k hk
    have hp := download_loop_complete o MONTHS hdl s k hk
    rw [hD] at hp
    exact hp
  rcases hM : merge_parquet_files_to_csv o s1 with ⟨s2, tr2, mok⟩
  have hmfields := merge_fields o s1
  rw [hM] at hmfields
  obtain ⟨ha2, hr2, ms, hcsv2⟩ := hmfields
  have hmok : mok = true := by
    have hp := merge_ok o s1 hcv
    rw [hM] at hp
    exact hp
  subst hmok
  rcases hL : load_csv_to_postgres env o s2 with ⟨s3, tr3, e⟩
  have hlfields := load_success_state env o s2 ms hcsv2 hn ht hcp
  rw [hL] at hlfields
  obtain ⟨he, hr3, hc3, ha3⟩ := hlfields
  subst he
  unfold run_full_refresh
  rw [hc, hD]
  simp only [eq_self_iff_true, if_true, hM, hL, hs, hg]
  refine ⟨?_, ?_, ?_⟩
  · intro m hm
    rw [ha3, ha2]
    exact hs1mem m hm
  · rw [hr3, hc3]
  · rw [hc3]
    rfl

/-- Claim C6: running full refresh twice in succession with no upstream
change writes nothing on the second run — every download is skipped
because the artifact exists, the merge is skipped because the combined CSV
exists, and the load is skipped because the CSV row count equals the table
row count and is positive — so the second run only executes the three SQL
scripts and returns the state unchanged. -/
theorem C6_full_refresh_idempotent (env : Nat → Nat) (o : FROracles)
    (s0 : FRState)
    (hc : o.createOk = true) (hdl : ∀ m, o.downloadOk m = true)
    (hcv : ∀ m, o.convertOk m = true) (hn : o.countOk = true)
    (ht : o.truncateOk = true) (hcp : o.copyOk = true)
    (hs : o.silverOk = true) (hg : o.goldOk = true)
    (hpos : 0 < csv_row_count env (((run_full_refresh env o s0).1).csv)) :
    run_full_refresh env o ((run_full_refresh env o s0).1) =
      ((run_full_refresh env o s0).1,
       [Effect.runCreate, Effect.runSilver, Effect.runGold], Outcome.normal) := by
  obtain ⟨hmem, hraw, hsome⟩ :=
    run_full_refresh_success_state env o s0 hc hdl hcv hn ht hcp hs hg
  set s1 := (run_full_refresh env o s0).1 with hs1def
  obtain ⟨ms, hms⟩ := Option.isSome_iff_exists.mp hsome
  rw [hms] at hpos
  have hD : download_loop o s1 MONTHS = (s1, []) :=
    download_loop_noop o MONTHS s1 hmem
  have hM : merge_parquet_files_to_csv o s1 = (s1, [], true) :=
    merge_skip_of_csv_some o s1 ms hms
  have hL : load_csv_to_postgres env o s1 = (s1, [], none) := by
    unfold load_csv_to_postgres
    rw [hms]
    have hdb : get_table_row_count o.countOk s1.rawRows = s1.rawRows := by
      simp [get_table_row_count, hn]
    have heq : csv_row_count env (some ms) = s1.rawRows := by
      rw [hms] at hraw
      exact hraw.symm
    have hskip : load_decision (csv_row_count env (some ms))
        (get_table_row_count o.countOk s1.rawRows) = LoadDecision.Skip := by
      rw [hdb]
      exact (load_decision_skip_char _ _).mpr ⟨heq, hpos⟩
    simp [hskip]
  unfold run_full_refresh
  rw [hc, hD]
  simp only [eq_self_iff_true, if_true, hM, hL, hs, hg]
  simp

/-- Claim C6 witness: the theorem from the empty initial state with ten
rows per month. -/
theorem C6_full_refresh_idempotent_witness :
    run_full_refresh (fun _ => 10)
      { createOk := true, downloadOk := fun _ => true, convertOk := fun _ => true,
        countOk := true, truncateOk := true, copyOk := true, silverOk := true,
        goldOk := true }
      ((run_full_refresh (fun _ => 10)
        { createOk := true, downloadOk := fun _ => true, convertOk := fun _ => true,
          countOk := true, truncateOk := true, copyOk := true, silverOk := true,
          goldOk := true }
        { artifacts := [], csv := none, rawRows := 0 }).1) =
      ((run_full_refresh (fun _ => 10)
        { createOk := true, downloadOk := fun _ => true, convertOk := fun _ => true,
          countOk := true, truncateOk := true, copyOk := true, silverOk := true,
          goldOk := true }
        { artifacts := [], csv := none, rawRows := 0 }).1,
       [Effect.runCreate, Effect.runSilver, Effect.runGold], Outcome.normal) :=
  C6_full_refresh_idempotent (fun _ => 10)
    { createOk := true, downloadOk := fun _ => true, convertOk := fun _ => true,
      countOk := true, truncateOk := true, copyOk := true, silverOk := true,
      goldOk := true }
    { artifacts := [], csv := none, rawRows := 0 }
    rfl (fun _ => rfl) (fun _ => rfl) rfl rfl rfl rfl rfl (by decide)

end NycTaxi
